import Mathlib

/-!
Verification of the order lifecycle, job visibility, wallet payment and
realtime fan-out logic of a pet-transport dispatch backend.

The definitions below are a shallow embedding of the route handlers in
app/routers/orders.py, app/routers/settings.py, app/routers/chat_ws.py and
app/core/chat_subscriber.py.  Database tables are modelled as lists of
records, SQLAlchemy queries as list operations, and HTTP error responses as
an error type carrying the status class and the detail string (quote marks
inside detail strings are omitted).  Numeric columns (Decimal / Float) are
modelled as rationals.  The haversine distance of calculate_distance, whose
trigonometry has no exact rational form, is passed to the visibility
resolver as an explicit function parameter; every theorem about the
resolver holds for an arbitrary distance function, hence in particular for
the haversine distance of the source.
-/

namespace PetTransport

/-- Python truthiness of an optional string: None and the empty string are falsy. -/
def truthyStr : Option String → Bool
  | none => false
  | some s => !(s == "")

/-- Python truthiness of an optional integer: None and 0 are falsy. -/
def truthyNat : Option Nat → Bool
  | none => false
  | some n => !(n == 0)

/-- Python truthiness of an optional numeric value: None and 0 are falsy. -/
def truthyQ : Option ℚ → Bool
  | none => false
  | some q => decide (q ≠ 0)

/-- A row of the orders table (app/models.py, class Order), together with the
payment_status and payment_method columns that the order routers read and
write (they live in the migrated schema; the handlers in orders.py are the
behavioural authority for them). -/
structure Order where
  id : Nat
  user_id : Nat
  driver_id : Option Nat
  pet_id : Nat
  pickup_address : String
  pickup_lat : ℚ
  pickup_lng : ℚ
  dropoff_address : String
  dropoff_lat : ℚ
  dropoff_lng : ℚ
  status : String
  price : Option ℚ
  platform_fee : Option ℚ
  driver_earnings : Option ℚ
  commission_rate : Option ℚ
  payment_status : String
  payment_method : String
  created_at : Nat
deriving Repr, DecidableEq

/-- A row of the users table; wallet_balance is the column read and written
by the wallet payment handler. -/
structure User where
  id : Nat
  wallet_balance : ℚ
deriving Repr, DecidableEq

/-- A row of the drivers table (app/models.py, class Driver). -/
structure DriverRec where
  id : Nat
  user_id : Nat
  work_radius_km : Option ℚ
deriving Repr, DecidableEq

/-- A row of the driver_locations table (app/models.py, class DriverLocation). -/
structure DriverLoc where
  driver_id : Nat
  lat : ℚ
  lng : ℚ
deriving Repr, DecidableEq

/-- A row of the declined_orders table (app/models.py, class DeclinedOrder). -/
structure DeclinedRec where
  driver_id : Nat
  order_id : Nat
deriving Repr, DecidableEq

/-- A row of the wallet_transactions ledger created by pay_with_wallet. -/
structure WalletTxn where
  user_id : Nat
  amount : ℚ
  type : String
  status : String
  reference_id : String
  description : String
deriving Repr, DecidableEq

/-- The database state seen by the handlers.  platform_settings values are
stored as strings in the source and converted with float(); they are
modelled as the rationals those strings denote. -/
structure DB where
  orders : List Order
  users : List User
  drivers : List DriverRec
  locations : List DriverLoc
  declined : List DeclinedRec
  transactions : List WalletTxn
  settings : List (String × ℚ)
deriving Repr, DecidableEq

/-- db.query(Order).filter(Order.id == order_id).first() -/
def DB.findOrder (db : DB) (orderId : Nat) : Option Order :=
  db.orders.find? (fun o => o.id == orderId)

/-- db.query(Driver).filter(Driver.user_id == current_user.id).first() -/
def DB.findDriverByUser (db : DB) (userId : Nat) : Option DriverRec :=
  db.drivers.find? (fun d => d.user_id == userId)

/-- db.query(Driver).filter(Driver.id == order.driver_id).first() -/
def DB.findDriverById (db : DB) (driverId : Nat) : Option DriverRec :=
  db.drivers.find? (fun d => d.id == driverId)

/-- db.query(User).filter(User.id == x).first() -/
def DB.findUser (db : DB) (userId : Nat) : Option User :=
  db.users.find? (fun u => u.id == userId)

/-- db.query(DriverLocation).filter(DriverLocation.driver_id == driver.id).first() -/
def DB.findLocation (db : DB) (driverId : Nat) : Option DriverLoc :=
  db.locations.find? (fun l => l.driver_id == driverId)

/-- Committing a mutated order row: the stored row with the same id is
overwritten with the new attribute values. -/
def DB.setOrder (db : DB) (o : Order) : DB :=
  { db with orders := db.orders.map (fun x => if x.id == o.id then o else x) }

/-- Committing a mutated wallet_balance on a user row. -/
def DB.setUserBalance (db : DB) (userId : Nat) (b : ℚ) : DB :=
  { db with users :=
      db.users.map (fun u => if u.id == userId then { u with wallet_balance := b } else u) }

/-- The HTTP error responses raised by the handlers, by status class. -/
inductive ApiError where
  | notFound (detail : String)
  | forbidden (detail : String)
  | badRequest (detail : String)
  | internal
deriving Repr, DecidableEq

/-- The check-and-write phase of accept_order (orders.py lines 166-182),
acting on the order snapshot produced by the read phase.  The write commits
unconditionally: there is no update-if-current-status-equals guard against
the stored row. -/
def acceptWrite (db : DB) (driver : DriverRec) (order : Order) :
    Except ApiError (Order × DB) :=
  if order.status == "accepted" && order.driver_id == some driver.id then
    .ok (order, db)
  else if order.status != "pending" then
    .error (.badRequest "Order is not pending")
  else
    let updated := { order with driver_id := some driver.id, status := "accepted" }
    .ok (updated, db.setOrder updated)

/-- accept_order (orders.py, POST /orders/id/accept): read the driver and the
order, then run the check-and-write phase on the row that was read. -/
def acceptOrder (db : DB) (currentUserId orderId : Nat) :
    Except ApiError (Order × DB) :=
  match db.findDriverByUser currentUserId with
  | none => .error (.forbidden "Only drivers can accept orders")
  | some driver =>
    match db.findOrder orderId with
    | none => .error (.notFound "Order not found")
    | some order => acceptWrite db driver order

/-- pickup_order (orders.py, POST /orders/id/pickup). -/
def pickupOrder (db : DB) (currentUserId orderId : Nat) :
    Except ApiError (Order × DB) :=
  match db.findDriverByUser currentUserId with
  | none => .error (.forbidden "Only drivers can perform this action")
  | some driver =>
    match db.findOrder orderId with
    | none => .error (.notFound "Order not found")
    | some order =>
      if order.driver_id != some driver.id then
        .error (.forbidden "You are not the driver for this order")
      else if order.status == "in_progress" then
        .ok (order, db)
      else if order.status != "accepted" then
        .error (.badRequest
          ("Order must be in accepted status to pickup (current: " ++ order.status ++ ")"))
      else
        let updated := { order with status := "in_progress" }
        .ok (updated, db.setOrder updated)

/-- complete_order (orders.py, POST /orders/id/complete). -/
def completeOrder (db : DB) (currentUserId orderId : Nat) :
    Except ApiError (Order × DB) :=
  match db.findDriverByUser currentUserId with
  | none => .error (.forbidden "Only drivers can perform this action")
  | some driver =>
    match db.findOrder orderId with
    | none => .error (.notFound "Order not found")
    | some order =>
      if order.driver_id != some driver.id then
        .error (.forbidden "You are not the driver for this order")
      else if order.status == "completed" then
        .ok (order, db)
      else if order.status != "in_progress" then
        .error (.badRequest
          ("Order must be in in_progress status to complete (current: " ++ order.status ++ ")"))
      else if order.payment_status != "paid" then
        .error (.badRequest "Payment required before completion")
      else
        let updated := { order with status := "completed" }
        .ok (updated, db.setOrder updated)

/-- cancel_order (orders.py, POST /orders/id/cancel): customer cancel and
driver release share this handler. -/
def cancelOrder (db : DB) (currentUserId orderId : Nat) :
    Except ApiError (Order × DB) :=
  match db.findOrder orderId with
  | none => .error (.notFound "Order not found")
  | some order =>
    if order.status == "cancelled" then
      .ok (order, db)
    else if order.user_id == currentUserId then
      let updated := { order with status := "cancelled", driver_id := none }
      .ok (updated, db.setOrder updated)
    else
      match db.findDriverByUser currentUserId with
      | some driver =>
        if order.driver_id == some driver.id then
          if order.status == "pending" && order.driver_id == none then
            .ok (order, db)
          else
            let updated := { order with driver_id := none, status := "pending" }
            .ok (updated, db.setOrder updated)
        else
          .error (.forbidden
            "Only the customer or the assigned driver can cancel/release this order")
      | none =>
        .error (.forbidden
          "Only the customer or the assigned driver can cancel/release this order")

/-- decline_order (orders.py, POST /orders/id/decline): insert a
declined_orders row if absent, otherwise no-op; success either way. -/
def declineOrder (db : DB) (currentUserId orderId : Nat) :
    Except ApiError (String × DB) :=
  match db.findDriverByUser currentUserId with
  | none => .error (.forbidden "Only drivers can decline orders")
  | some driver =>
    if db.declined.any (fun r => r.driver_id == driver.id && r.order_id == orderId) then
      .ok ("Order declined successfully", db)
    else
      .ok ("Order declined successfully",
        { db with declined := db.declined ++ [⟨driver.id, orderId⟩] })

/-- pay_with_wallet (orders.py, POST /orders/id/pay-wallet).  The two
internal error cases model Python runtime faults the handler does not
catch: an authenticated current_user row always exists, and comparing or
adding a null Decimal raises a TypeError. -/
def payWithWallet (db : DB) (currentUserId orderId : Nat) :
    Except ApiError (Order × DB) :=
  match db.findOrder orderId with
  | none => .error (.notFound "Order not found")
  | some order =>
    if order.user_id != currentUserId then
      .error (.forbidden "Not your order")
    else if order.payment_status == "paid" then
      .ok (order, db)
    else
      match db.findUser currentUserId with
      | none => .error .internal
      | some user =>
        match order.price with
        | none => .error .internal
        | some price =>
          if user.wallet_balance < price then
            .error (.badRequest "Insufficient wallet balance")
          else
            let db1 := db.setUserBalance currentUserId (user.wallet_balance - price)
            let updated := { order with payment_status := "paid", payment_method := "wallet" }
            let db2 := db1.setOrder updated
            let txn : WalletTxn :=
              { user_id := currentUserId, amount := -price, type := "payment",
                status := "success", reference_id := toString order.id,
                description := "Payment for trip #" ++ toString order.id }
            let db3 := { db2 with transactions := db2.transactions ++ [txn] }
            match order.driver_id with
            | none => .ok (updated, db3)
            | some did =>
              if did == 0 then .ok (updated, db3)
              else
                match db3.findDriverById did with
                | none => .ok (updated, db3)
                | some drv =>
                  match db3.findUser drv.user_id with
                  | none => .ok (updated, db3)
                  | some driverUser =>
                    match order.driver_earnings with
                    | none => .error .internal
                    | some earn =>
                      let db4 := db3.setUserBalance driverUser.id
                        (driverUser.wallet_balance + earn)
                      let dtxn : WalletTxn :=
                        { user_id := driverUser.id, amount := earn, type := "earning",
                          status := "success", reference_id := toString order.id,
                          description := "Earnings from trip #" ++ toString order.id }
                      .ok (updated, { db4 with transactions := db4.transactions ++ [dtxn] })

/-- The database state committed by a successful wallet payment whose order
has an assigned driver with an existing user account: the composition of
the mutations of pay_with_wallet, written with the same primitives. -/
def walletPaidDB (db : DB) (uid : Nat) (order : Order) (user du : User)
    (p earn : ℚ) : DB :=
  let db1 := db.setUserBalance uid (user.wallet_balance - p)
  let updated := { order with payment_status := "paid", payment_method := "wallet" }
  let db2 := db1.setOrder updated
  let db3 := { db2 with transactions := db2.transactions ++
    [({ user_id := uid, amount := -p, type := "payment", status := "success",
        reference_id := toString order.id,
        description := "Payment for trip #" ++ toString order.id } : WalletTxn)] }
  let db4 := db3.setUserBalance du.id (du.wallet_balance + earn)
  { db4 with transactions := db4.transactions ++
    [({ user_id := du.id, amount := earn, type := "earning", status := "success",
        reference_id := toString order.id,
        description := "Earnings from trip #" ++ toString order.id } : WalletTxn)] }

/-- Insert one order into a list that is sorted by created_at descending. -/
def insertByCreatedDesc (o : Order) : List Order → List Order
  | [] => [o]
  | x :: xs =>
      if x.created_at ≤ o.created_at then o :: x :: xs
      else x :: insertByCreatedDesc o xs

/-- query = db.query(Order).order_by(Order.created_at.desc()) -/
def sortByCreatedDesc : List Order → List Order
  | [] => []
  | x :: xs => insertByCreatedDesc x (sortByCreatedDesc xs)

/-- declined_ids of list_orders (orders.py lines 102-103): the order ids this
driver has declined. -/
def declinedIdsOf (db : DB) (driverId : Nat) : List Nat :=
  (db.declined.filter (fun r => r.driver_id == driverId)).map (fun r => r.order_id)

/-- The distance function used by the radius filter.  In the source this is
calculate_distance (orders.py lines 13-22), the haversine great-circle
distance with Earth radius 6371 km; it is kept abstract here because its
trigonometry has no exact rational form, and all visibility theorems are
proved for an arbitrary distance function. -/
abbrev DistFn := ℚ → ℚ → ℚ → ℚ → ℚ

/-- list_orders (orders.py, GET /orders/).  statusQ and driverIdQ are the
optional query parameters; Python truthiness of the guards is preserved. -/
def listOrders (dist : DistFn) (db : DB) (statusQ : Option String)
    (driverIdQ : Option Nat) (currentUserId : Nat) : List Order :=
  let query := sortByCreatedDesc db.orders
  let query :=
    if truthyStr statusQ then query.filter (fun o => o.status == statusQ.getD "")
    else query
  if truthyNat driverIdQ then
    query.filter (fun o => o.driver_id == some (driverIdQ.getD 0))
  else
    match db.findDriverByUser currentUserId with
    | some driver =>
      if truthyStr statusQ && statusQ.getD "" != "pending" then
        query.filter (fun o => o.driver_id == some driver.id)
      else
        let declinedIds := declinedIdsOf db driver.id
        let query :=
          if declinedIds.isEmpty then query
          else query.filter (fun o => !(declinedIds.contains o.id))
        if !(truthyStr statusQ) || statusQ.getD "" == "pending" then
          match db.findLocation driver.id with
          | some loc =>
            if truthyQ driver.work_radius_km then
              let radius := driver.work_radius_km.getD 0
              query.filter (fun o =>
                o.driver_id == some driver.id ||
                decide (dist loc.lat loc.lng o.pickup_lat o.pickup_lng ≤ radius))
            else query
          | none => query
        else query
    | none => query.filter (fun o => o.user_id == currentUserId)

/-- get_setting helper (app/routers/settings.py): value of the key, or the
default when absent. -/
def getSetting (db : DB) (key : String) (default : ℚ) : ℚ :=
  match db.settings.find? (fun kv => kv.1 == key) with
  | some kv => kv.2
  | none => default

/-- update_setting (app/routers/settings.py, PUT /settings/key): overwrite
the value of an existing key, 404 when the key is absent. -/
def updateSetting (db : DB) (key : String) (value : ℚ) : Except ApiError DB :=
  if db.settings.any (fun kv => kv.1 == key) then
    .ok { db with settings :=
      db.settings.map (fun kv => if kv.1 == key then (kv.1, value) else kv) }
  else
    .error (.notFound ("Setting " ++ key ++ " not found"))

/-- round(x, 2) from create_order.  Python rounds floats half to even; the
claims rely only on the bound abs (round2 x - x) <= 1/200, which holds for
every nearest-integer rounding, so the tie is modelled with the ambient
nearest-integer rounding on rationals. -/
def round2 (x : ℚ) : ℚ := (round (x * 100) : ℤ) / 100

/-- The request body of create_order (app/schemas.py, OrderCreate), with the
pydantic defaults. -/
structure OrderCreate where
  driver_id : Option Nat := none
  pet_id : Nat
  pickup_address : String
  pickup_lat : ℚ
  pickup_lng : ℚ
  dropoff_address : String
  dropoff_lat : ℚ
  dropoff_lng : ℚ
  status : Option String := some "pending"
  price : Option ℚ := none
  payment_status : Option String := some "pending"
  payment_method : Option String := some "cash"
deriving Repr, DecidableEq

/-- create_order (orders.py, POST /orders/): snapshot the commission rate
from platform settings and derive platform_fee and driver_earnings from it
when a truthy price is given; fall back to payment defaults; insert the row.
newId and now stand for the generated primary key and timestamp; the pets
relation rows are not modelled (no claim reads them). -/
def createOrder (db : DB) (currentUserId : Nat) (inp : OrderCreate)
    (newId now : Nat) : Order × DB :=
  let rate := getSetting db "commission_rate" (7/100)
  let financials : Option ℚ × Option ℚ × Option ℚ :=
    if truthyQ inp.price then
      (some rate, some (round2 (inp.price.getD 0 * rate)),
       some (round2 (inp.price.getD 0 * (1 - rate))))
    else (none, none, none)
  let paymentMethod := if truthyStr inp.payment_method then inp.payment_method.getD "" else "cash"
  let paymentStatus := if truthyStr inp.payment_status then inp.payment_status.getD "" else "pending"
  let o : Order :=
    { id := newId, user_id := currentUserId, driver_id := inp.driver_id,
      pet_id := inp.pet_id, pickup_address := inp.pickup_address,
      pickup_lat := inp.pickup_lat, pickup_lng := inp.pickup_lng,
      dropoff_address := inp.dropoff_address, dropoff_lat := inp.dropoff_lat,
      dropoff_lng := inp.dropoff_lng, status := inp.status.getD "pending",
      price := inp.price, platform_fee := financials.2.1,
      driver_earnings := financials.2.2, commission_rate := financials.1,
      payment_status := paymentStatus, payment_method := paymentMethod,
      created_at := now }
  (o, { db with orders := db.orders ++ [o] })

/-- A live chat connection of chat_ws.py: active_connections is a dict keyed
by the string "orderId:userId".  Keys are modelled as the pair they encode;
since decimal numerals contain no colon, the listener test
key.startswith(orderId ++ colon) holds exactly when the key's first
component equals orderId. -/
structure Conn where
  orderId : Nat
  userId : Nat
deriving Repr, DecidableEq

/-- The send loop of listen_chat (app/core/chat_subscriber.py lines 27-31):
attempt ws.send_json on each target in order; a failure is caught, printed
and the loop continues.  sendOk tells which sends succeed; the result lists
the connections the event actually reached. -/
def fanOut (targets : List Conn) (sendOk : Conn → Bool) : List Conn :=
  match targets with
  | [] => []
  | c :: rest => (if sendOk c then [c] else []) ++ fanOut rest sendOk

/-- One iteration of the listen_chat loop (app/core/chat_subscriber.py) on a
pmessage for channel chat:orderId: select the registered connections whose
key starts with "orderId:", send to each, and return the delivered
connections together with the registry afterwards (the handler never
mutates active_connections; the except branch only prints). -/
def deliverEvent (registry : List Conn) (orderId : Nat) (sendOk : Conn → Bool) :
    List Conn × List Conn :=
  let targets := registry.filter (fun c => c.orderId == orderId)
  (fanOut targets sendOk, registry)

/-- A template order row for the concrete instances used below. -/
def baseOrder : Order :=
  { id := 1, user_id := 10, driver_id := none, pet_id := 1,
    pickup_address := "A", pickup_lat := 13, pickup_lng := 100,
    dropoff_address := "B", dropoff_lat := 14, dropoff_lng := 101,
    status := "pending", price := some 60, platform_fee := some (21/5),
    driver_earnings := some (279/5), commission_rate := some (7/100),
    payment_status := "pending", payment_method := "cash", created_at := 0 }

/-- Driver 5, account of user 20, work radius 10 km. -/
def drvA : DriverRec := { id := 5, user_id := 20, work_radius_km := some 10 }

/-- Driver 6, account of user 30, work radius 10 km. -/
def drvB : DriverRec := { id := 6, user_id := 30, work_radius_km := some 10 }

/-- A template database: customer 10 owns order 1; drivers 5 and 6 belong to
users 20 and 30; driver 5 has a recorded location. -/
def baseDB : DB :=
  { orders := [baseOrder], users := [⟨10, 100⟩, ⟨20, 0⟩, ⟨30, 0⟩],
    drivers := [drvA, drvB], locations := [⟨5, 13, 100⟩],
    declined := [], transactions := [], settings := [("commission_rate", 7/100)] }

/-- Order 1 after driver 5 completed it (payment settled). -/
def completedOrder : Order :=
  { baseOrder with status := "completed", driver_id := some 5, payment_status := "paid" }

/-- The template database with order 1 completed. -/
def completedDB : DB := { baseDB with orders := [completedOrder] }

/-- Order 1 cancelled. -/
def cancelledOrder : Order := { baseOrder with status := "cancelled" }

/-- The template database with order 1 cancelled. -/
def cancelledDB : DB := { baseDB with orders := [cancelledOrder] }

/-- Order 1 in progress with driver 5, not yet paid. -/
def inprogUnpaidOrder : Order :=
  { baseOrder with status := "in_progress", driver_id := some 5 }

/-- The template database with order 1 in progress and unpaid. -/
def inprogUnpaidDB : DB := { baseDB with orders := [inprogUnpaidOrder] }

/-- Order 1 in progress with driver 5, already paid. -/
def inprogPaidOrder : Order :=
  { baseOrder with status := "in_progress", driver_id := some 5, payment_status := "paid" }

/-- The template database with order 1 in progress and paid. -/
def inprogPaidDB : DB := { baseDB with orders := [inprogPaidOrder] }

/-- A distance function that reports 10 km for every pair of points: order 1
sits exactly on the 10 km boundary of driver 5. -/
def distTen : DistFn := fun _ _ _ _ => 10

/-- The create_order request used by the commission witness: price 60, all
other payment fields left at their pydantic defaults. -/
def inpW : OrderCreate :=
  { pet_id := 1, pickup_address := "A", pickup_lat := 13, pickup_lng := 100,
    dropoff_address := "B", dropoff_lat := 14, dropoff_lng := 101,
    price := some 60 }

/-- The template database after driver 5 declines order 1. -/
def declinedDB : DB := { baseDB with declined := [⟨5, 1⟩] }

/-- Chat registry: users 1 and 2 on order 42, user 3 on order 7. -/
def chatReg : List Conn := [⟨42, 1⟩, ⟨42, 2⟩, ⟨7, 3⟩]

/-- Send outcome where the socket of user 1 is broken and every other send
succeeds. -/
def sendFail1 : Conn → Bool := fun c => !(c.userId == 1)

/-- Chat registry for the fan-out witness: user 4 on order 42, user 5 on
order 9. -/
def chatReg2 : List Conn := [⟨42, 4⟩, ⟨9, 5⟩]

theorem mem_insertByCreatedDesc (o a : Order) (l : List Order) :
    a ∈ insertByCreatedDesc o l ↔ a = o ∨ a ∈ l := by
  induction l with
  | nil => simp [insertByCreatedDesc]
  | cons x xs ih =>
    simp only [insertByCreatedDesc]
    split
    · simp [List.mem_cons]
    · simp only [List.mem_cons, ih]
      tauto

theorem mem_sortByCreatedDesc (a : Order) (l : List Order) :
    a ∈ sortByCreatedDesc l ↔ a ∈ l := by
  induction l with
  | nil => simp [sortByCreatedDesc]
  | cons x xs ih =>
    simp [sortByCreatedDesc, mem_insertByCreatedDesc, ih]

theorem mem_declinedIdsOf (db : DB) (driverId n : Nat) :
    n ∈ declinedIdsOf db driverId ↔
      ∃ r ∈ db.declined, r.driver_id = driverId ∧ r.order_id = n := by
  simp only [declinedIdsOf, List.mem_map, List.mem_filter, beq_iff_eq]
  constructor
  · rintro ⟨r, ⟨hr, hdr⟩, hid⟩
    exact ⟨r, hr, hdr, hid⟩
  · rintro ⟨r, hr, hdr, hid⟩
    exact ⟨r, ⟨hr, hdr⟩, hid⟩

theorem mem_declinedFilter (ids : List Nat) (l : List Order) (o : Order) :
    (o ∈ if ids.isEmpty then l else l.filter (fun x => !(ids.contains x.id))) ↔
      o ∈ l ∧ o.id ∉ ids := by
  split
  · rename_i h
    rw [List.isEmpty_iff] at h
    simp [h]
  · simp [List.mem_filter]

theorem listOrders_default_radius_eq (dist : DistFn) (db : DB) (uid : Nat)
    (driver : DriverRec) (loc : DriverLoc) (radius : ℚ)
    (hd : db.findDriverByUser uid = some driver)
    (hloc : db.findLocation driver.id = some loc)
    (hrad : driver.work_radius_km = some radius) (hrad0 : radius ≠ 0) :
    listOrders dist db none none uid =
      (if (declinedIdsOf db driver.id).isEmpty then sortByCreatedDesc db.orders
       else (sortByCreatedDesc db.orders).filter
         (fun o => !((declinedIdsOf db driver.id).contains o.id))).filter
        (fun o => o.driver_id == some driver.id ||
          decide (dist loc.lat loc.lng o.pickup_lat o.pickup_lng ≤ radius)) := by
  simp only [listOrders, truthyStr, truthyNat, truthyQ, hd, hloc, hrad,
    Bool.false_and, Bool.not_false, Bool.false_or, if_false, Option.getD_some]
  simp [hrad0]

theorem listOrders_default_noloc_eq (dist : DistFn) (db : DB) (uid : Nat)
    (driver : DriverRec)
    (hd : db.findDriverByUser uid = some driver)
    (hloc : db.findLocation driver.id = none) :
    listOrders dist db none none uid =
      (if (declinedIdsOf db driver.id).isEmpty then sortByCreatedDesc db.orders
       else (sortByCreatedDesc db.orders).filter
         (fun o => !((declinedIdsOf db driver.id).contains o.id))) := by
  simp [listOrders, truthyStr, truthyNat, hd, hloc]

theorem listOrders_default_noradius_eq (dist : DistFn) (db : DB) (uid : Nat)
    (driver : DriverRec) (loc : DriverLoc)
    (hd : db.findDriverByUser uid = some driver)
    (hloc : db.findLocation driver.id = some loc)
    (ht : truthyQ driver.work_radius_km = false) :
    listOrders dist db none none uid =
      (if (declinedIdsOf db driver.id).isEmpty then sortByCreatedDesc db.orders
       else (sortByCreatedDesc db.orders).filter
         (fun o => !((declinedIdsOf db driver.id).contains o.id))) := by
  simp [listOrders, truthyStr, truthyNat, hd, hloc, ht]

theorem mem_listOrders_default_not_declined (dist : DistFn) (db : DB) (uid : Nat)
    (driver : DriverRec) (o : Order)
    (hd : db.findDriverByUser uid = some driver)
    (hmem : o ∈ listOrders dist db none none uid) :
    o ∈ db.orders ∧ o.id ∉ declinedIdsOf db driver.id := by
  cases hloc : db.findLocation driver.id with
  | none =>
    rw [listOrders_default_noloc_eq dist db uid driver hd hloc,
      mem_declinedFilter, mem_sortByCreatedDesc] at hmem
    exact hmem
  | some loc =>
    cases ht : truthyQ driver.work_radius_km with
    | false =>
      rw [listOrders_default_noradius_eq dist db uid driver loc hd hloc ht,
        mem_declinedFilter, mem_sortByCreatedDesc] at hmem
      exact hmem
    | true =>
      cases hr : driver.work_radius_km with
      | none => rw [hr] at ht; simp [truthyQ] at ht
      | some radius =>
        have hr0 : radius ≠ 0 := by
          rw [hr] at ht
          simpa [truthyQ] using ht
        rw [listOrders_default_radius_eq dist db uid driver loc radius hd hloc hr hr0,
          List.mem_filter, mem_declinedFilter, mem_sortByCreatedDesc] at hmem
        exact hmem.1

theorem declinedIdsOf_append_other (db : DB) (extra : DeclinedRec) (d2 : Nat)
    (h : d2 ≠ extra.driver_id) :
    declinedIdsOf { db with declined := db.declined ++ [extra] } d2 =
      declinedIdsOf db d2 := by
  have hb : (extra.driver_id == d2) = false := by
    simp only [beq_eq_false_iff_ne]
    exact fun hh => h hh.symm
  simp [declinedIdsOf, List.filter_append, hb]

theorem listOrders_congr_declined (dist : DistFn) (db : DB) (extra : DeclinedRec)
    (sq : Option String) (dq : Option Nat) (uid2 : Nat)
    (h : ∀ driver2, db.findDriverByUser uid2 = some driver2 →
      driver2.id ≠ extra.driver_id) :
    listOrders dist { db with declined := db.declined ++ [extra] } sq dq uid2 =
      listOrders dist db sq dq uid2 := by
  have hfd : ({ db with declined := db.declined ++ [extra] } : DB).findDriverByUser uid2 =
      db.findDriverByUser uid2 := rfl
  cases hd2 : db.findDriverByUser uid2 with
  | none => simp only [listOrders, hfd, hd2]
  | some driver2 =>
    have hids := declinedIdsOf_append_other db extra driver2.id (h driver2 hd2)
    simp only [listOrders, DB.findLocation, hfd, hd2, hids]

/-- C1: for every order and every acting driver, accept succeeds exactly when
the order is pending (setting driver_id to that driver and status to
accepted), or when the order is already accepted by that same driver
(idempotent replay returning the current order unchanged); in any other
status it fails with the invalid-state error of the handler (HTTP 400,
"Order is not pending") and, since the error path commits nothing, the
order is left unchanged. -/
theorem accept_transitions (db : DB) (uid oid : Nat) (driver : DriverRec)
    (order : Order)
    (hd : db.findDriverByUser uid = some driver)
    (ho : db.findOrder oid = some order) :
    (order.status = "pending" →
      acceptOrder db uid oid =
        .ok ({ order with driver_id := some driver.id, status := "accepted" },
          db.setOrder { order with driver_id := some driver.id, status := "accepted" })) ∧
    (order.status = "accepted" → order.driver_id = some driver.id →
      acceptOrder db uid oid = .ok (order, db)) ∧
    (order.status ≠ "pending" →
      ¬(order.status = "accepted" ∧ order.driver_id = some driver.id) →
      acceptOrder db uid oid = .error (.badRequest "Order is not pending")) := by
  refine ⟨?_, ?_, ?_⟩
  · intro h
    simp [acceptOrder, hd, ho, acceptWrite, h]
  · intro h1 h2
    simp [acceptOrder, hd, ho, acceptWrite, h1, h2]
  · intro h1 h2
    have hc : (order.status == "accepted" && order.driver_id == some driver.id) = false := by
      by_cases hs : order.status = "accepted"
      · have hn : order.driver_id ≠ some driver.id := fun hdid => h2 ⟨hs, hdid⟩
        simp [hs, hn]
      · simp [hs]
    simp [acceptOrder, hd, ho, acceptWrite, hc, h1]

/-- Witness for C1: in the template database, driver 5 (user 20) accepts the
pending order 1; the pending branch of accept_transitions applies. -/
theorem accept_transitions_witness :
    acceptOrder baseDB 20 1 =
      .ok ({ baseOrder with driver_id := some 5, status := "accepted" },
        baseDB.setOrder { baseOrder with driver_id := some 5, status := "accepted" }) :=
  (accept_transitions baseDB 20 1 drvA baseOrder rfl rfl).1 rfl

/-- C2 counterexample: the claim says no transition changes the status of a
completed order and that cancel by the owning customer mutates exactly the
non-terminal orders; but in the code cancel by the owner on the completed
order 1 sets its status to cancelled and clears its driver. -/
theorem cancel_mutates_completed_cex :
    (completedDB.findOrder 1).map Order.status = some "completed" ∧
    (cancelOrder completedDB 10 1).map (fun r => (r.1.status, r.1.driver_id)) =
      .ok ("cancelled", none) := ⟨rfl, rfl⟩

/-- C2 (amended): cancelled is terminal — accept, pickup and complete never
succeed on a cancelled order, and cancel on it (by any caller) is a no-op
returning the same order without error; however completed is not terminal
with respect to cancel: cancel invoked by the owning customer sets status
to cancelled and clears driver_id whenever the current status is anything
other than cancelled, including completed. -/
theorem cancel_terminality_amended (db : DB) (uid oid : Nat) (order : Order)
    (ho : db.findOrder oid = some order) :
    (order.status = "cancelled" →
      cancelOrder db uid oid = .ok (order, db) ∧
      (∀ r, acceptOrder db uid oid ≠ .ok r) ∧
      (∀ r, pickupOrder db uid oid ≠ .ok r) ∧
      (∀ r, completeOrder db uid oid ≠ .ok r)) ∧
    (order.user_id = uid → order.status ≠ "cancelled" →
      cancelOrder db uid oid =
        .ok ({ order with status := "cancelled", driver_id := none },
          db.setOrder { order with status := "cancelled", driver_id := none })) := by
  constructor
  · intro h
    refine ⟨by simp [cancelOrder, ho, h], ?_, ?_, ?_⟩
    · intro r hcontra
      cases hd : db.findDriverByUser uid with
      | none => simp [acceptOrder, hd] at hcontra
      | some driver => simp [acceptOrder, hd, ho, acceptWrite, h] at hcontra
    · intro r hcontra
      cases hd : db.findDriverByUser uid with
      | none => simp [pickupOrder, hd] at hcontra
      | some driver =>
        by_cases hdid : order.driver_id = some driver.id
        · simp [pickupOrder, hd, ho, hdid, h] at hcontra
        · simp [pickupOrder, hd, ho, hdid, h] at hcontra
    · intro r hcontra
      cases hd : db.findDriverByUser uid with
      | none => simp [completeOrder, hd] at hcontra
      | some driver =>
        by_cases hdid : order.driver_id = some driver.id
        · simp [completeOrder, hd, ho, hdid, h] at hcontra
        · simp [completeOrder, hd, ho, hdid, h] at hcontra
  · intro h1 h2
    simp [cancelOrder, ho, h1, h2]

/-- Witness for C2 (amended): cancel replay on the cancelled order 1 is a
no-op for any caller, and owner 10 cancelling the completed order 1
mutates it to cancelled with the driver cleared. -/
theorem cancel_terminality_witness :
    cancelOrder cancelledDB 20 1 = .ok (cancelledOrder, cancelledDB) ∧
    cancelOrder completedDB 10 1 =
      .ok ({ completedOrder with status := "cancelled", driver_id := none },
        completedDB.setOrder { completedOrder with status := "cancelled", driver_id := none }) :=
  ⟨((cancel_terminality_amended cancelledDB 20 1 cancelledOrder rfl).1 rfl).1,
   (cancel_terminality_amended completedDB 10 1 completedOrder rfl).2 rfl (by decide)⟩

/-- C3: for an order in status in_progress whose assigned driver acts,
complete fails with the conflict-class error of the handler (HTTP 400,
"Payment required before completion") whenever payment_status is not paid,
leaving the order unchanged since the error path commits nothing; when
payment_status is paid it sets the status to completed; and replaying
complete on an already-completed order is a no-op returning the order. -/
theorem complete_requires_payment (db : DB) (uid oid : Nat) (driver : DriverRec)
    (order : Order)
    (hd : db.findDriverByUser uid = some driver)
    (ho : db.findOrder oid = some order)
    (hdid : order.driver_id = some driver.id) :
    (order.status = "in_progress" → order.payment_status ≠ "paid" →
      completeOrder db uid oid = .error (.badRequest "Payment required before completion")) ∧
    (order.status = "in_progress" → order.payment_status = "paid" →
      completeOrder db uid oid =
        .ok ({ order with status := "completed" },
          db.setOrder { order with status := "completed" })) ∧
    (order.status = "completed" → completeOrder db uid oid = .ok (order, db)) := by
  refine ⟨?_, ?_, ?_⟩
  · intro h1 h2
    simp [completeOrder, hd, ho, hdid, h1, h2]
  · intro h1 h2
    simp [completeOrder, hd, ho, hdid, h1, h2]
  · intro h1
    simp [completeOrder, hd, ho, hdid, h1]

/-- Witness for C3: driver 5 (user 20) completing order 1 fails while it is
unpaid, succeeds once it is paid, and replays as a no-op once completed. -/
theorem complete_requires_payment_witness :
    completeOrder inprogUnpaidDB 20 1 =
      .error (.badRequest "Payment required before completion") ∧
    completeOrder inprogPaidDB 20 1 =
      .ok ({ inprogPaidOrder with status := "completed" },
        inprogPaidDB.setOrder { inprogPaidOrder with status := "completed" }) ∧
    completeOrder completedDB 20 1 = .ok (completedOrder, completedDB) :=
  ⟨(complete_requires_payment inprogUnpaidDB 20 1 drvA inprogUnpaidOrder rfl rfl
      rfl).1 rfl (by decide),
   (complete_requires_payment inprogPaidDB 20 1 drvA inprogPaidOrder rfl rfl
      rfl).2.1 rfl rfl,
   (complete_requires_payment completedDB 20 1 drvA completedOrder rfl rfl
      rfl).2.2 rfl⟩

/-- C4: evaluation at the failing input.  Order 1 is pending with no driver
assigned and user 20 is a driver who is not the owner; the claim (and the
handler's own already-released branch with its comment) expect a silent
idempotent no-op, but the handler raises 403 Forbidden, because the
already-released branch sits under the guard order.driver_id == driver.id,
which can never hold when driver_id is null. -/
theorem release_replay_forbidden_bug :
    (baseDB.findOrder 1).map (fun o => (o.status, o.driver_id)) =
      some ("pending", none) ∧
    baseDB.findDriverByUser 20 = some drvA ∧
    cancelOrder baseDB 20 1 =
      .error (.forbidden
        "Only the customer or the assigned driver can cancel/release this order") :=
  ⟨rfl, rfl, rfl⟩

/-- C9: evaluation of the unsynchronized interleaving at a concrete input.
accept_order is a read phase followed by a check-and-write phase with no
update-if-current-status-equals guard; when the requests of drivers 5 and 6
both read order 1 while it is still pending and then both write, both
return ok (the claim requires the second to observe a conflict) and the
second commit silently overwrites the first assignment, leaving the order
accepted by driver 6. -/
theorem accept_race_both_succeed :
    baseDB.findOrder 1 = some baseOrder ∧ baseOrder.status = "pending" ∧
    acceptWrite baseDB drvA baseOrder =
      .ok ({ baseOrder with driver_id := some 5, status := "accepted" },
        baseDB.setOrder { baseOrder with driver_id := some 5, status := "accepted" }) ∧
    acceptWrite
        (baseDB.setOrder { baseOrder with driver_id := some 5, status := "accepted" })
        drvB baseOrder =
      .ok ({ baseOrder with driver_id := some 6, status := "accepted" },
        (baseDB.setOrder { baseOrder with driver_id := some 5, status := "accepted" }).setOrder
          { baseOrder with driver_id := some 6, status := "accepted" }) ∧
    ((baseDB.setOrder { baseOrder with driver_id := some 5, status := "accepted" }).setOrder
        { baseOrder with driver_id := some 6, status := "accepted" }).findOrder 1 =
      some { baseOrder with driver_id := some 6, status := "accepted" } :=
  ⟨rfl, rfl, rfl, rfl, rfl⟩

/-- C5: in a driver's default available-jobs view (no query parameters), when
the driver has a recorded location and a truthy work radius, a non-declined
pending order is included iff its pickup is within the radius under the
distance function (non-strict inequality, boundary inclusive), except that
orders already assigned to this driver are included regardless of distance;
the statement holds for every distance function, in particular for the
haversine distance of calculate_distance, so an order at exactly the radius
is in and one strictly beyond it is out.  When the driver has no recorded
location, radius filtering is skipped entirely (fail-open): exactly the
non-declined orders are visible. -/
theorem visibility_radius_default (dist : DistFn) (db : DB) (uid : Nat)
    (driver : DriverRec)
    (hd : db.findDriverByUser uid = some driver) :
    (∀ loc radius, db.findLocation driver.id = some loc →
      driver.work_radius_km = some radius → radius ≠ 0 →
      ∀ o ∈ db.orders, o.status = "pending" →
        o.id ∉ declinedIdsOf db driver.id →
        (o ∈ listOrders dist db none none uid ↔
          (o.driver_id = some driver.id ∨
            dist loc.lat loc.lng o.pickup_lat o.pickup_lng ≤ radius))) ∧
    (db.findLocation driver.id = none →
      ∀ o, (o ∈ listOrders dist db none none uid ↔
        (o ∈ db.orders ∧ o.id ∉ declinedIdsOf db driver.id))) := by
  constructor
  · intro loc radius hloc hrad hrad0 o ho hpend hdecl
    rw [listOrders_default_radius_eq dist db uid driver loc radius hd hloc hrad hrad0,
      List.mem_filter, mem_declinedFilter, mem_sortByCreatedDesc]
    simp [ho, hdecl]
  · intro hloc o
    rw [listOrders_default_noloc_eq dist db uid driver hd hloc, mem_declinedFilter,
      mem_sortByCreatedDesc]

/-- Witness for C5: under the distance function that reports exactly 10 km,
the pending non-declined order 1 is visible to driver 5 whose work radius
is 10 km — the boundary is inclusive. -/
theorem visibility_radius_witness :
    baseOrder ∈ listOrders distTen baseDB none none 20 :=
  ((visibility_radius_default distTen baseDB 20 drvA rfl).1 ⟨5, 13, 100⟩ 10 rfl rfl
    (by norm_num) baseOrder (by simp [baseDB]) rfl (by simp [declinedIdsOf, baseDB])).mpr
    (Or.inr (by norm_num [distTen]))

/-- C6: decline is idempotent and strictly personal: a successful decline
returns the success message; immediately replaying it returns the same
message and the same database (the duplicate insert is a no-op that still
succeeds); the orders table is untouched; the declined order no longer
appears in the declining driver's default visibility list (for any distance
function); and the visibility list of every other user — a driver with a
different driver id, or a plain customer — is unchanged for every
combination of query parameters. -/
theorem decline_idempotent_personal (db db1 : DB) (uid oid : Nat)
    (driver : DriverRec) (msg : String)
    (hd : db.findDriverByUser uid = some driver)
    (h1 : declineOrder db uid oid = .ok (msg, db1)) :
    msg = "Order declined successfully" ∧
    declineOrder db1 uid oid = .ok (msg, db1) ∧
    db1.orders = db.orders ∧
    (∀ dist, oid ∉ (listOrders dist db1 none none uid).map Order.id) ∧
    (∀ uid2 driver2, db.findDriverByUser uid2 = some driver2 →
      driver2.id ≠ driver.id →
      ∀ dist sq dq, listOrders dist db1 sq dq uid2 = listOrders dist db sq dq uid2) ∧
    (∀ uid2, db.findDriverByUser uid2 = none →
      ∀ dist sq dq, listOrders dist db1 sq dq uid2 = listOrders dist db sq dq uid2) := by
  by_cases hc :
      db.declined.any (fun r => r.driver_id == driver.id && r.order_id == oid) = true
  · simp only [declineOrder, hd, hc, if_true, Except.ok.injEq, Prod.mk.injEq] at h1
    obtain ⟨hm, hdb⟩ := h1
    subst hdb
    have hdecl : oid ∈ declinedIdsOf db driver.id := by
      rw [List.any_eq_true] at hc
      obtain ⟨r, hr, hp⟩ := hc
      rw [Bool.and_eq_true, beq_iff_eq, beq_iff_eq] at hp
      exact (mem_declinedIdsOf db driver.id oid).mpr ⟨r, hr, hp.1, hp.2⟩
    refine ⟨hm.symm, ?_, rfl, ?_, ?_, ?_⟩
    · simp [declineOrder, hd, hc, hm]
    · intro dist hmem
      rw [List.mem_map] at hmem
      obtain ⟨o, homem, hoid⟩ := hmem
      exact (mem_listOrders_default_not_declined dist db uid driver o hd homem).2
        (by rw [hoid]; exact hdecl)
    · intro uid2 driver2 hfind2 hne dist sq dq
      rfl
    · intro uid2 hnone dist sq dq
      rfl
  · rw [Bool.not_eq_true] at hc
    simp only [declineOrder, hd, hc, if_false, Except.ok.injEq, Prod.mk.injEq,
      Bool.false_eq_true] at h1
    obtain ⟨hm, hdb⟩ := h1
    subst hdb
    have hd1 : (({ db with declined := db.declined ++ [⟨driver.id, oid⟩] }) : DB).findDriverByUser
        uid = some driver := hd
    have hdecl : oid ∈
        declinedIdsOf { db with declined := db.declined ++ [⟨driver.id, oid⟩] } driver.id :=
      (mem_declinedIdsOf _ driver.id oid).mpr
        ⟨⟨driver.id, oid⟩, by simp, rfl, rfl⟩
    refine ⟨hm.symm, ?_, rfl, ?_, ?_, ?_⟩
    · simp [declineOrder, hd1, List.any_append, hm]
    · intro dist hmem
      rw [List.mem_map] at hmem
      obtain ⟨o, homem, hoid⟩ := hmem
      exact (mem_listOrders_default_not_declined dist _ uid driver o hd1 homem).2
        (by rw [hoid]; exact hdecl)
    · intro uid2 driver2 hfind2 hne dist sq dq
      refine listOrders_congr_declined dist db ⟨driver.id, oid⟩ sq dq uid2 ?_
      intro d2 h2
      rw [hfind2] at h2
      cases h2
      exact hne
    · intro uid2 hnone dist sq dq
      refine listOrders_congr_declined dist db ⟨driver.id, oid⟩ sq dq uid2 ?_
      intro d2 h2
      rw [hnone] at h2
      cases h2

/-- Witness for C6: driver 5 (user 20) declines order 1 in the template
database; the replay is a no-op and order 1 leaves the driver's default
view. -/
theorem decline_idempotent_witness :
    declineOrder baseDB 20 1 = .ok ("Order declined successfully", declinedDB) ∧
    declineOrder declinedDB 20 1 = .ok ("Order declined successfully", declinedDB) ∧
    1 ∉ (listOrders distTen declinedDB none none 20).map Order.id := by
  have h := decline_idempotent_personal baseDB declinedDB 20 1 drvA
    "Order declined successfully" rfl rfl
  exact ⟨rfl, h.2.1, h.2.2.2.1 distTen⟩

theorem find?_map_comm {α β : Type} (f : α → β) (p : β → Bool) (q : α → Bool)
    (l : List α) (h : ∀ a, p (f a) = q a) :
    (l.map f).find? p = (l.find? q).map f := by
  induction l with
  | nil => rfl
  | cons a l ih =>
    simp only [List.map_cons, List.find?]
    rw [h a]
    cases q a
    · simpa using ih
    · rfl

theorem findUser_setUserBalance (db : DB) (x : Nat) (b : ℚ) (y : Nat) :
    (db.setUserBalance x b).findUser y =
      (db.findUser y).map
        (fun u => if u.id == x then { u with wallet_balance := b } else u) := by
  simp only [DB.setUserBalance, DB.findUser]
  refine find?_map_comm _ _ _ db.users ?_
  intro u
  by_cases hx : (u.id == x) = true <;> simp [hx]

theorem findUser_id (db : DB) (y : Nat) (u : User) (h : db.findUser y = some u) :
    u.id = y := by
  have := List.find?_some h
  simpa using this

theorem findUser_addTxn (db : DB) (t : List WalletTxn) (y : Nat) :
    ({ db with transactions := t } : DB).findUser y = db.findUser y := rfl

theorem findUser_setOrder (db : DB) (o : Order) (y : Nat) :
    (db.setOrder o).findUser y = db.findUser y := rfl

theorem findDriverById_addTxn (db : DB) (t : List WalletTxn) (i : Nat) :
    ({ db with transactions := t } : DB).findDriverById i = db.findDriverById i := rfl

theorem findDriverById_setOrder (db : DB) (o : Order) (i : Nat) :
    (db.setOrder o).findDriverById i = db.findDriverById i := rfl

theorem findDriverById_setUserBalance (db : DB) (x : Nat) (b : ℚ) (i : Nat) :
    (db.setUserBalance x b).findDriverById i = db.findDriverById i := rfl

theorem orders_addTxn (db : DB) (t : List WalletTxn) :
    ({ db with transactions := t } : DB).orders = db.orders := rfl

theorem orders_setUserBalance (db : DB) (x : Nat) (b : ℚ) :
    (db.setUserBalance x b).orders = db.orders := rfl

theorem orders_setOrder (db : DB) (o : Order) :
    (db.setOrder o).orders = db.orders.map (fun x => if x.id == o.id then o else x) := rfl

theorem transactions_addTxn (db : DB) (t : List WalletTxn) :
    ({ db with transactions := t } : DB).transactions = t := rfl

theorem transactions_setUserBalance (db : DB) (x : Nat) (b : ℚ) :
    (db.setUserBalance x b).transactions = db.transactions := rfl

theorem transactions_setOrder (db : DB) (o : Order) :
    (db.setOrder o).transactions = db.transactions := rfl

/-- C7: pay-with-wallet by the owning customer on an order with an assigned
driver: when the order is not yet paid and the wallet balance is at least
the price (boundary included), it debits the customer wallet by the price,
credits the assigned driver's user wallet by driver_earnings, marks the
order paid via wallet, and appends exactly two new ledger entries with
amounts -price and +driver_earnings, all in the single commit modelled by
walletPaidDB; when the balance is below the price it fails with the
insufficient-funds error without committing anything; when the order is
already paid it is a no-op returning the order. -/
theorem pay_with_wallet_correct (db : DB) (uid oid : Nat) (order : Order)
    (user du : User) (drv : DriverRec) (did : Nat) (p earn : ℚ)
    (ho : db.findOrder oid = some order)
    (hown : order.user_id = uid)
    (hu : db.findUser uid = some user)
    (hprice : order.price = some p)
    (hdid : order.driver_id = some did) (hdid0 : did ≠ 0)
    (hdrv : db.findDriverById did = some drv)
    (hdu : db.findUser drv.user_id = some du)
    (hne : drv.user_id ≠ uid)
    (hearn : order.driver_earnings = some earn) :
    (order.payment_status = "paid" → payWithWallet db uid oid = .ok (order, db)) ∧
    (order.payment_status ≠ "paid" → user.wallet_balance < p →
      payWithWallet db uid oid = .error (.badRequest "Insufficient wallet balance")) ∧
    (order.payment_status ≠ "paid" → p ≤ user.wallet_balance →
      payWithWallet db uid oid =
        .ok ({ order with payment_status := "paid", payment_method := "wallet" },
          walletPaidDB db uid order user du p earn) ∧
      (walletPaidDB db uid order user du p earn).findUser uid =
        some { user with wallet_balance := user.wallet_balance - p } ∧
      (walletPaidDB db uid order user du p earn).findUser drv.user_id =
        some { du with wallet_balance := du.wallet_balance + earn } ∧
      (walletPaidDB db uid order user du p earn).orders = db.orders.map
        (fun x => if x.id == order.id
          then { order with payment_status := "paid", payment_method := "wallet" }
          else x) ∧
      (walletPaidDB db uid order user du p earn).transactions = db.transactions ++
        [{ user_id := uid, amount := -p, type := "payment", status := "success",
           reference_id := toString order.id,
           description := "Payment for trip #" ++ toString order.id },
         { user_id := du.id, amount := earn, type := "earning", status := "success",
           reference_id := toString order.id,
           description := "Earnings from trip #" ++ toString order.id }]) := by
  have huid : user.id = uid := findUser_id db uid user hu
  have hduid : du.id = drv.user_id := findUser_id db drv.user_id du hdu
  have hdune : du.id ≠ uid := by rw [hduid]; exact hne
  refine ⟨?_, ?_, ?_⟩
  · intro hpaid
    simp [payWithWallet, ho, hown, hpaid]
  · intro hnp hlt
    simp [payWithWallet, ho, hown, hnp, hu, hprice, hlt]
  · intro hnp hbal
    have hnlt : ¬(user.wallet_balance < p) := not_lt.mpr hbal
    have hdu1 : (db.setUserBalance uid (user.wallet_balance - p)).findUser drv.user_id
        = some du := by
      rw [findUser_setUserBalance, hdu]
      simp [hdune]
    refine ⟨?_, ?_, ?_, ?_, ?_⟩
    · simp only [payWithWallet, walletPaidDB, ho, hown, hnp, hu, hprice, hdid, hdid0,
        findDriverById_addTxn, findDriverById_setOrder, findDriverById_setUserBalance,
        hdrv, findUser_addTxn, findUser_setOrder, hdu1, hearn, bne_self_eq_false,
        Bool.false_eq_true, if_false, if_neg hnlt, beq_iff_eq, if_neg hdid0]
    · simp [walletPaidDB, findUser_addTxn, findUser_setOrder, findUser_setUserBalance,
        hu, huid, Ne.symm hdune]
    · simp [walletPaidDB, findUser_addTxn, findUser_setOrder, findUser_setUserBalance,
        hdu1]
    · simp [walletPaidDB, orders_addTxn, orders_setUserBalance, orders_setOrder]
    · simp [walletPaidDB, transactions_addTxn, transactions_setUserBalance,
        transactions_setOrder, List.append_assoc]

/-- Witness for C7: customer 10 with balance 100 pays the 60-unit order 1
assigned to driver 5 (user 20, balance 0, earnings 55.8): afterwards the
customer balance is 40, the driver balance is 55.8, and the ledger holds
exactly the amounts -60 and +55.8. -/
theorem pay_with_wallet_witness :
    payWithWallet inprogUnpaidDB 10 1 =
      .ok ({ inprogUnpaidOrder with payment_status := "paid", payment_method := "wallet" },
        walletPaidDB inprogUnpaidDB 10 inprogUnpaidOrder ⟨10, 100⟩ ⟨20, 0⟩ 60 (279/5)) ∧
    (walletPaidDB inprogUnpaidDB 10 inprogUnpaidOrder ⟨10, 100⟩ ⟨20, 0⟩ 60
        (279/5)).findUser 10 = some ⟨10, 40⟩ ∧
    (walletPaidDB inprogUnpaidDB 10 inprogUnpaidOrder ⟨10, 100⟩ ⟨20, 0⟩ 60
        (279/5)).transactions.map WalletTxn.amount = [-60, 279/5] := by
  have h := (pay_with_wallet_correct inprogUnpaidDB 10 1 inprogUnpaidOrder
    ⟨10, 100⟩ ⟨20, 0⟩ drvA 5 60 (279/5) rfl rfl rfl rfl rfl (by decide) rfl rfl
    (by decide) rfl).2.2 (by decide) (by norm_num)
  refine ⟨h.1, ?_, ?_⟩
  · have h2 := h.2.1
    norm_num at h2 ⊢
    exact h2
  · have h5 := h.2.2.2.2
    rw [h5]
    rfl

theorem mem_fanOut (targets : List Conn) (sendOk : Conn → Bool) (c : Conn) :
    c ∈ fanOut targets sendOk ↔ c ∈ targets ∧ sendOk c = true := by
  induction targets with
  | nil => simp [fanOut]
  | cons a t ih =>
    simp only [fanOut, List.mem_append, List.mem_cons, ih]
    by_cases h : sendOk a = true
    · simp only [h, if_true]
      constructor
      · rintro (hc | ⟨hc, hs⟩)
        · rw [List.mem_singleton] at hc
          exact ⟨Or.inl hc, hc ▸ h⟩
        · exact ⟨Or.inr hc, hs⟩
      · rintro ⟨hc | hc, hs⟩
        · exact Or.inl (by rw [List.mem_singleton]; exact hc)
        · exact Or.inr ⟨hc, hs⟩
    · rw [Bool.not_eq_true] at h
      simp only [h, Bool.false_eq_true, if_false, List.not_mem_nil, false_or]
      constructor
      · rintro ⟨hc, hs⟩
        exact ⟨Or.inr hc, hs⟩
      · rintro ⟨hc | hc, hs⟩
        · rw [hc, h] at hs
          cases hs
        · exact ⟨hc, hs⟩

/-- C8 counterexample: with users 1 and 2 registered on order 42 and user 3
on order 7, and the socket of user 1 broken, the event published on chat:42
is still delivered to user 2 — the failure does not block the loop — but
the failed connection is NOT unregistered: the registry after the iteration
is unchanged and still holds the connection of user 1, while the claim
requires it to be removed so later iterations do not retry it. -/
theorem chat_fanout_keeps_failed_cex :
    deliverEvent chatReg 42 sendFail1 = ([⟨42, 2⟩], chatReg) ∧
    (⟨42, 1⟩ : Conn) ∈ (deliverEvent chatReg 42 sendFail1).2 ∧
    sendFail1 ⟨42, 1⟩ = false := ⟨rfl, by decide, rfl⟩

/-- C8 (amended): on an event published on chat:N the listener delivers
exactly to the locally registered connections scoped to order N whose send
succeeds — a failed send to one connection does not prevent delivery to the
remaining matching connections — and to no connection registered under any
other order; however the registry is left unchanged: a failed connection is
not unregistered by the listener (only the connection's own handler removes
it), so later iterations will retry it. -/
theorem chat_fanout_amended (registry : List Conn) (oid : Nat)
    (sendOk : Conn → Bool) :
    (∀ c, c ∈ (deliverEvent registry oid sendOk).1 ↔
      (c ∈ registry ∧ c.orderId = oid ∧ sendOk c = true)) ∧
    (deliverEvent registry oid sendOk).2 = registry := by
  refine ⟨?_, rfl⟩
  intro c
  simp only [deliverEvent]
  rw [mem_fanOut]
  simp [List.mem_filter, and_assoc]

/-- Witness for C8 (amended): with user 4 on order 42 and user 5 on order 9
and all sends healthy, the event on chat:42 reaches the connection of user
4 and the registry is unchanged. -/
theorem chat_fanout_amended_witness :
    (⟨42, 4⟩ : Conn) ∈ (deliverEvent chatReg2 42 (fun _ => true)).1 ∧
    (deliverEvent chatReg2 42 (fun _ => true)).2 = chatReg2 :=
  ⟨((chat_fanout_amended chatReg2 42 (fun _ => true)).1 ⟨42, 4⟩).mpr
      ⟨by decide, rfl, rfl⟩,
   (chat_fanout_amended chatReg2 42 (fun _ => true)).2⟩

theorem round2_close (x : ℚ) : |round2 x - x| ≤ 1/200 := by
  have h := abs_sub_round (x * 100)
  rw [round2]
  have heq : (round (x * 100) : ℚ) / 100 - x = ((round (x * 100) : ℚ) - x * 100) / 100 := by
    ring
  rw [heq, abs_div, abs_of_pos (by norm_num : (0:ℚ) < 100)]
  calc |(round (x * 100) : ℚ) - x * 100| / 100 ≤ (1/2) / 100 := by
        exact (div_le_div_iff_of_pos_right (by norm_num)).mpr (by rw [abs_sub_comm]; exact h)
    _ = 1/200 := by norm_num

/-- C10: an order created with a truthy price snapshots the commission rate
from the live settings at creation time onto the order, stores
platform_fee = round(price * rate, 2) and driver_earnings =
round(price * (1 - rate), 2) computed from that snapshot, and the stored
split satisfies the rounding-tolerance invariant
|platform_fee + driver_earnings - price| ≤ 1/100; updating the live
commission_rate setting afterwards leaves every stored order untouched, so
the fields derive from the snapshot and not the live setting. -/
theorem commission_snapshot_rounding (db : DB) (uid : Nat) (inp : OrderCreate)
    (newId now : Nat) (p : ℚ)
    (hp : inp.price = some p) (hp0 : p ≠ 0) :
    ((createOrder db uid inp newId now).1).commission_rate =
      some (getSetting db "commission_rate" (7/100)) ∧
    ((createOrder db uid inp newId now).1).platform_fee =
      some (round2 (p * getSetting db "commission_rate" (7/100))) ∧
    ((createOrder db uid inp newId now).1).driver_earnings =
      some (round2 (p * (1 - getSetting db "commission_rate" (7/100)))) ∧
    (∀ fee earn, ((createOrder db uid inp newId now).1).platform_fee = some fee →
      ((createOrder db uid inp newId now).1).driver_earnings = some earn →
      |fee + earn - p| ≤ 1/100) ∧
    (∀ v db2, updateSetting (createOrder db uid inp newId now).2 "commission_rate" v
        = .ok db2 → db2.orders = ((createOrder db uid inp newId now).2).orders) := by
  have h1 : ((createOrder db uid inp newId now).1).commission_rate =
      some (getSetting db "commission_rate" (7/100)) := by
    simp [createOrder, hp, truthyQ, hp0]
  have h2 : ((createOrder db uid inp newId now).1).platform_fee =
      some (round2 (p * getSetting db "commission_rate" (7/100))) := by
    simp [createOrder, hp, truthyQ, hp0]
  have h3 : ((createOrder db uid inp newId now).1).driver_earnings =
      some (round2 (p * (1 - getSetting db "commission_rate" (7/100)))) := by
    simp [createOrder, hp, truthyQ, hp0]
  refine ⟨h1, h2, h3, ?_, ?_⟩
  · intro fee earn hfee hearn
    rw [h2, Option.some.injEq] at hfee
    rw [h3, Option.some.injEq] at hearn
    subst hfee hearn
    have ha := round2_close (p * getSetting db "commission_rate" (7/100))
    have hb := round2_close (p * (1 - getSetting db "commission_rate" (7/100)))
    calc |round2 (p * getSetting db "commission_rate" (7/100)) +
            round2 (p * (1 - getSetting db "commission_rate" (7/100))) - p|
        = |(round2 (p * getSetting db "commission_rate" (7/100)) -
              p * getSetting db "commission_rate" (7/100)) +
            (round2 (p * (1 - getSetting db "commission_rate" (7/100))) -
              p * (1 - getSetting db "commission_rate" (7/100)))| := by
          congr 1
          ring
      _ ≤ |round2 (p * getSetting db "commission_rate" (7/100)) -
              p * getSetting db "commission_rate" (7/100)| +
            |round2 (p * (1 - getSetting db "commission_rate" (7/100))) -
              p * (1 - getSetting db "commission_rate" (7/100))| := abs_add _ _
      _ ≤ 1/200 + 1/200 := add_le_add ha hb
      _ = 1/100 := by norm_num
  · intro v db2 h
    by_cases hk : ((createOrder db uid inp newId now).2).settings.any
        (fun kv => kv.1 == "commission_rate") = true
    · simp only [updateSetting, hk, if_true, Except.ok.injEq] at h
      rw [← h]
    · rw [Bool.not_eq_true] at hk
      simp only [updateSetting, hk, Bool.false_eq_true, if_false] at h
      exact Except.noConfusion h

/-- Witness for C10: creating an order with price 60 while the stored
commission rate is 0.07 snapshots rate 0.07 and stores fee 4.2 and
earnings 55.8, whose sum is exactly the price. -/
theorem commission_snapshot_witness :
    ((createOrder baseDB 10 inpW 2 0).1).commission_rate = some (7/100) ∧
    ((createOrder baseDB 10 inpW 2 0).1).platform_fee = some (21/5) ∧
    ((createOrder baseDB 10 inpW 2 0).1).driver_earnings = some (279/5) ∧
    |(21/5 : ℚ) + 279/5 - 60| ≤ 1/100 := by
  have h := commission_snapshot_rounding baseDB 10 inpW 2 0 60 rfl (by norm_num)
  have hfee : ((createOrder baseDB 10 inpW 2 0).1).platform_fee = some (21/5) := by
    rw [h.2.1]
    norm_num [getSetting, baseDB, round2, round_eq]
  have hearn : ((createOrder baseDB 10 inpW 2 0).1).driver_earnings = some (279/5) := by
    rw [h.2.2.1]
    norm_num [getSetting, baseDB, round2, round_eq]
  refine ⟨?_, hfee, hearn, h.2.2.2.1 (21/5) (279/5) hfee hearn⟩
  rw [h.1]
  norm_num [getSetting, baseDB]

end PetTransport
